import Mathlib

set_option maxRecDepth 10000

/-!
Verification of the ESC/POS command encoder, receipt composer and USB
device session of `src/lib/escpos.ts` (next-print).

The TypeScript code is shallowly embedded:

* The `ESCPOSBuilder` class owns a growable array of JavaScript numbers
  (`private data: number[]`); we model that buffer as a `List Nat` and every
  builder method as a function appending to it.  `build()` wraps the buffer
  in `new Uint8Array(this.data)`, which coerces every entry modulo 256; the
  embedding of `build` therefore maps `· % 256` over the list.
* `TextEncoder().encode` is embedded as a UTF-8 encoder on Lean strings.
* The WebUSB descriptor tree is embedded structurally; fields that the
  embedded functions never read (packet sizes, class codes, alternate
  numbers, ...) are omitted.  The transfer primitives of the transport are
  modelled as oracle fields of the device: each records the outcome the
  transport would deliver for the single call `print` makes to it, a thrown
  exception being an `Except.error` carrying the exception's message.
  `print` additionally returns the list of transport calls it performed.
-/

namespace NextPrint

def ESC : Nat := 0x1b
def GS : Nat := 0x1d
def LF : Nat := 0x0a

/-- UTF-8 encoding of one Unicode scalar value, as `TextEncoder` produces
(byte values as natural numbers). -/
def utf8EncodeChar (c : Char) : List Nat :=
  let n := c.toNat
  if n < 0x80 then [n]
  else if n < 0x800 then [0xc0 + n / 64, 0x80 + n % 64]
  else if n < 0x10000 then
    [0xe0 + n / 4096, 0x80 + (n / 64) % 64, 0x80 + n % 64]
  else
    [0xf0 + n / 262144, 0x80 + (n / 4096) % 64, 0x80 + (n / 64) % 64,
      0x80 + n % 64]

/-- Embedding of `new TextEncoder().encode(s)`. -/
def utf8Encode (s : String) : List Nat :=
  (s.data.map utf8EncodeChar).flatten

inductive TextAlign
  | LEFT
  | CENTER
  | RIGHT
  deriving DecidableEq

/-- Numeric value of the `TextAlign` enum member in the source. -/
def TextAlign.val : TextAlign → Nat
  | .LEFT => 0x00
  | .CENTER => 0x01
  | .RIGHT => 0x02

inductive TextSize
  | NORMAL
  | DOUBLE_HEIGHT
  | DOUBLE_WIDTH
  | DOUBLE_BOTH
  deriving DecidableEq

/-- Numeric value of the `TextSize` enum member in the source. -/
def TextSize.val : TextSize → Nat
  | .NORMAL => 0x00
  | .DOUBLE_HEIGHT => 0x10
  | .DOUBLE_WIDTH => 0x20
  | .DOUBLE_BOTH => 0x30

inductive CutType
  | FULL
  | PARTIAL
  deriving DecidableEq

/-- Numeric value of the `CutType` enum member in the source. -/
def CutType.val : CutType → Nat
  | .FULL => 0x00
  | .PARTIAL => 0x01

namespace ESCPOSBuilder

/-- Method `initialize()`: `this.data.push(ESC, 0x40)`. -/
def initPrinter (b : List Nat) : List Nat :=
  b ++ [ESC, 0x40]

/-- The buffer right after `new ESCPOSBuilder()`: the constructor starts from
`data = []` and calls `initialize()`. -/
def new : List Nat :=
  initPrinter []

/-- Method `align(alignment)`. -/
def align (b : List Nat) (alignment : TextAlign) : List Nat :=
  b ++ [ESC, 0x61, alignment.val]

/-- Method `textSize(size)`. -/
def textSize (b : List Nat) (size : TextSize) : List Nat :=
  b ++ [ESC, 0x21, size.val]

/-- Method `bold(enabled = true)`. -/
def bold (b : List Nat) (enabled : Bool := true) : List Nat :=
  b ++ [ESC, 0x45, if enabled then 0x01 else 0x00]

/-- Method `underline(mode = 1)`. -/
def underline (b : List Nat) (mode : Nat := 1) : List Nat :=
  b ++ [ESC, 0x2d, mode]

/-- Method `text(text)`: pushes the UTF-8 encoding of the string. -/
def text (b : List Nat) (t : String) : List Nat :=
  b ++ utf8Encode t

/-- Method `line(text = '')`: `text(text)` then one `LF`. -/
def line (b : List Nat) (t : String := "") : List Nat :=
  text b t ++ [LF]

/-- Method `feed(lines = 1)`: pushes `lines` copies of `LF`. -/
def feed (b : List Nat) (lines : Nat := 1) : List Nat :=
  b ++ List.replicate lines LF

/-- Embedding of JavaScript `String.prototype.repeat`. -/
def strRepeat (s : String) (n : Nat) : String :=
  String.join (List.replicate n s)

/-- Method `drawLine(char = '-', length = 32)`. -/
def drawLine (b : List Nat) (c : String := "-") (length : Nat := 32) : List Nat :=
  line b (strRepeat c length)

/-- Method `barcode(data, height = 50)`. -/
def barcode (b : List Nat) (data : String) (height : Nat := 50) : List Nat :=
  b ++ [GS, 0x68, height] ++ [GS, 0x77, 0x02] ++ [GS, 0x6b, 0x04]
    ++ utf8Encode data ++ [0x00]

/-- Method `qrCode(data, size = 6)`.  Note that the source computes
`pL = len % 256` and `pH = Math.floor(len / 256)` from the raw UTF-8 length
and then pushes `pL + 3` — the `+ 3` is applied after the split into bytes,
so a carry out of the low byte is lost. -/
def qrCode (b : List Nat) (data : String) (size : Nat := 6) : List Nat :=
  let qrData := utf8Encode data
  let len := qrData.length
  let pL := len % 256
  let pH := len / 256
  b ++ [GS, 0x28, 0x6b, 0x04, 0x00, 0x31, 0x41, 0x32, 0x00]
    ++ [GS, 0x28, 0x6b, 0x03, 0x00, 0x31, 0x43, size]
    ++ [GS, 0x28, 0x6b, 0x03, 0x00, 0x31, 0x45, 0x30]
    ++ [GS, 0x28, 0x6b, pL + 3, pH, 0x31, 0x50, 0x30]
    ++ qrData
    ++ [GS, 0x28, 0x6b, 0x03, 0x00, 0x31, 0x51, 0x30]

/-- Method `openDrawer()`. -/
def openDrawer (b : List Nat) : List Nat :=
  b ++ [ESC, 0x70, 0x00, 0x32, 0xff]

/-- Method `cut(type = CutType.FULL)`. -/
def cut (b : List Nat) (type : CutType := CutType.FULL) : List Nat :=
  b ++ [GS, 0x56, type.val]

/-- Method `build()`: `new Uint8Array(this.data)`.  Constructing a
`Uint8Array` from an array of numbers coerces each entry modulo 256; the
buffer itself is not modified. -/
def build (b : List Nat) : List Nat :=
  b.map (· % 256)

/-- Method `build()` viewed as a state transformer: it returns the snapshot
and leaves the internal buffer unchanged (the source neither mutates nor
clears `this.data`). -/
def buildM (b : List Nat) : List Nat × List Nat :=
  (b, build b)

/-- Method `reset()`: `this.data = []` then `this.initialize()`. -/
def reset (_b : List Nat) : List Nat :=
  initPrinter []

end ESCPOSBuilder

/-- One call to a builder method, for quantifying over arbitrary sequences
of operations on an `ESCPOSBuilder`. -/
inductive Op
  | initPrinter
  | align (a : TextAlign)
  | textSize (s : TextSize)
  | bold (enabled : Bool)
  | underline (mode : Nat)
  | text (t : String)
  | line (t : String)
  | feed (n : Nat)
  | drawLine (c : String) (n : Nat)
  | barcode (d : String) (h : Nat)
  | qrCode (d : String) (sz : Nat)
  | openDrawer
  | cut (t : CutType)
  | build
  | reset

/-- Effect of one builder method call on the internal buffer (`build` reads
the buffer but does not change it). -/
def applyOp (o : Op) (b : List Nat) : List Nat :=
  match o with
  | .initPrinter => ESCPOSBuilder.initPrinter b
  | .align a => ESCPOSBuilder.align b a
  | .textSize s => ESCPOSBuilder.textSize b s
  | .bold e => ESCPOSBuilder.bold b e
  | .underline m => ESCPOSBuilder.underline b m
  | .text t => ESCPOSBuilder.text b t
  | .line t => ESCPOSBuilder.line b t
  | .feed n => ESCPOSBuilder.feed b n
  | .drawLine c n => ESCPOSBuilder.drawLine b c n
  | .barcode d h => ESCPOSBuilder.barcode b d h
  | .qrCode d sz => ESCPOSBuilder.qrCode b d sz
  | .openDrawer => ESCPOSBuilder.openDrawer b
  | .cut t => ESCPOSBuilder.cut b t
  | .build => (ESCPOSBuilder.buildM b).1
  | .reset => ESCPOSBuilder.reset b

/-- Buffer reached from `b` by a sequence of builder method calls. -/
def runOps (ops : List Op) (b : List Nat) : List Nat :=
  ops.foldl (fun s o => applyOp o s) b

/-!
Receipt composer.  Amounts are JavaScript numbers in the source; they are
embedded as exact rationals.  Every IEEE-754 binary64 value is a rational,
and on the inputs verified below (integers and integral cent amounts) the
double-precision operations `*`, `+` and the comparison with `0` are exact,
so the rational computation coincides with the source's number computation
there.  Printing of numbers whose decimal expansion the source would
shorten (shortest-round-trip float printing) is outside the scope of the
verified statements.
-/

/-- String of a natural number in decimal, as JavaScript renders an
integral number. -/
def natRepr (n : Nat) : String :=
  Nat.repr n

/-- Fractional digits of a rational in `[0,1)`, fuel-bounded (used only for
terminating expansions). -/
def fracDigits : Nat → ℚ → String
  | 0, _ => ""
  | fuel + 1, r =>
    if r = 0 then ""
    else
      let r10 := r * 10
      let d := Int.floor r10
      String.singleton (Char.ofNat (48 + d.toNat)) ++ fracDigits fuel (r10 - d)

/-- Template interpolation `${q}` of a number: exact for integral values
(the only ones the verified statements interpolate); non-integral values
take their terminating decimal expansion. -/
def numRepr (q : ℚ) : String :=
  if q.den = 1 then
    if q.num < 0 then "-" ++ natRepr q.num.natAbs else natRepr q.num.natAbs
  else
    let sign := if q < 0 then "-" else ""
    let a := |q|
    sign ++ natRepr (Int.floor a).toNat ++ "." ++ fracDigits 64 (a - Int.floor a)

/-- Embedding of `Number.prototype.toFixed(2)` on an exact value: the
integer `n` minimising `|n / 100 - q|` is rendered with two fractional
digits, ties choosing the larger `n` (ECMA-262), the sign being split off
first. -/
def toFixed2 (q : ℚ) : String :=
  let s := if q < 0 then "-" else ""
  let a := |q|
  let n := (Int.floor (a * 100 + 1 / 2)).toNat
  s ++ natRepr (n / 100) ++ "." ++
    (if n % 100 < 10 then "0" else "") ++ natRepr (n % 100)

/-- Embedding of `String.prototype.padEnd(width)` (pads with spaces). -/
def padEnd (s : String) (width : Nat) : String :=
  s ++ String.mk (List.replicate (width - s.length) ' ')

/-- Interface `ReceiptItem`. -/
structure ReceiptItem where
  name : String
  quantity : ℚ
  price : ℚ

/-- Header section of `buildReceipt`; the source interpolates
`new Date().toLocaleString()`, an ambient input embedded as the parameter
`now`. -/
def receiptHeader (storeName : String) (now : String) : List Nat :=
  let b := ESCPOSBuilder.new
  let b := ESCPOSBuilder.align b TextAlign.CENTER
  let b := ESCPOSBuilder.textSize b TextSize.DOUBLE_BOTH
  let b := ESCPOSBuilder.bold b true
  let b := ESCPOSBuilder.line b storeName
  let b := ESCPOSBuilder.bold b false
  let b := ESCPOSBuilder.textSize b TextSize.NORMAL
  let b := ESCPOSBuilder.line b now
  let b := ESCPOSBuilder.feed b 1
  let b := ESCPOSBuilder.drawLine b "=" 32
  ESCPOSBuilder.align b TextAlign.LEFT

/-- Body of the `items.forEach` loop of `buildReceipt`: appends the two
lines for one item and accumulates the running subtotal. -/
def receiptItemStep (acc : List Nat × ℚ) (item : ReceiptItem) : List Nat × ℚ :=
  let total := item.quantity * item.price
  let itemLine :=
    padEnd item.name 18 ++ " " ++ numRepr item.quantity ++ "x " ++
      toFixed2 item.price
  let b := ESCPOSBuilder.line acc.1 itemLine
  let b := ESCPOSBuilder.align b TextAlign.RIGHT
  let b := ESCPOSBuilder.line b ("$" ++ toFixed2 total)
  let b := ESCPOSBuilder.align b TextAlign.LEFT
  (b, acc.2 + total)

/-- Totals and footer sections of `buildReceipt` (from the `-` rule up to
the final cut). -/
def receiptTotalsFooter (b : List Nat) (subtotal tax : ℚ) (payment : String) :
    List Nat :=
  let b := ESCPOSBuilder.drawLine b "-" 32
  let b := ESCPOSBuilder.align b TextAlign.RIGHT
  let b := ESCPOSBuilder.line b ("Subtotal: $" ++ toFixed2 subtotal)
  let b := if tax > 0 then ESCPOSBuilder.line b ("Tax: $" ++ toFixed2 tax) else b
  let grandTotal := subtotal + tax
  let b := ESCPOSBuilder.textSize b TextSize.DOUBLE_HEIGHT
  let b := ESCPOSBuilder.bold b true
  let b := ESCPOSBuilder.line b ("TOTAL: $" ++ toFixed2 grandTotal)
  let b := ESCPOSBuilder.textSize b TextSize.NORMAL
  let b := ESCPOSBuilder.bold b false
  let b := ESCPOSBuilder.line b ("Payment: " ++ payment)
  let b := ESCPOSBuilder.drawLine b "=" 32
  let b := ESCPOSBuilder.align b TextAlign.CENTER
  let b := ESCPOSBuilder.feed b 1
  let b := ESCPOSBuilder.line b "Thank you for your business!"
  let b := ESCPOSBuilder.line b "Visit us again soon"
  let b := ESCPOSBuilder.feed b 3
  ESCPOSBuilder.cut b CutType.FULL

/-- Embedding of `buildReceipt(storeName, items, tax = 0, payment =
'CASH')`; `now` is the ambient `new Date().toLocaleString()` text. -/
def buildReceipt (storeName : String) (items : List ReceiptItem)
    (tax : ℚ := 0) (payment : String := "CASH") (now : String := "") :
    List Nat :=
  let header := receiptHeader storeName now
  let itemsOut := items.foldl receiptItemStep (header, (0 : ℚ))
  ESCPOSBuilder.build (receiptTotalsFooter itemsOut.1 itemsOut.2 tax payment)

/-!
WebUSB device session (`WebUSBPrinter`).  Descriptor fields the embedded
functions never read are omitted.  The transfer primitives are oracle
fields on the device: each holds the outcome the transport delivers for the
one call `print` makes to it, `Except.error m` standing for a rejected
promise whose error has message `m`.
-/

inductive USBDirection
  | dirIn
  | dirOut
  deriving DecidableEq

/-- Status of a WebUSB OUT transfer (`'ok' | 'stall'`). -/
inductive USBTransferStatus
  | ok
  | stall
  deriving DecidableEq

/-- Text of the status, as interpolated by `` `Transfer status: ${result.status}` ``. -/
def USBTransferStatus.text : USBTransferStatus → String
  | .ok => "ok"
  | .stall => "stall"

structure USBEndpoint where
  endpointNumber : Nat
  direction : USBDirection
  deriving DecidableEq

structure USBAlternateInterface where
  endpoints : List USBEndpoint
  deriving DecidableEq

structure USBInterface where
  interfaceNumber : Nat
  alternates : List USBAlternateInterface
  deriving DecidableEq

structure USBConfiguration where
  configurationValue : Nat
  interfaces : List USBInterface
  deriving DecidableEq

structure USBOutTransferResult where
  bytesWritten : Nat
  status : USBTransferStatus
  deriving DecidableEq

structure USBDevice where
  configurations : List USBConfiguration
  /-- the active configuration (`device.configuration`), absent if none -/
  configuration : Option USBConfiguration
  opened : Bool
  /-- outcome of `device.open()` -/
  openResult : Except String Unit
  /-- outcome of `device.selectConfiguration(v)` -/
  selectConfigurationResult : Nat → Except String Unit
  /-- outcome of `device.claimInterface(n)` -/
  claimInterfaceResult : Nat → Except String Unit
  /-- outcome of the priming `device.controlTransferOut(...)` -/
  controlTransferOutResult : Except String USBOutTransferResult
  /-- outcome of `device.transferOut(endpointNumber, data)` -/
  transferOutResult : Nat → List Nat → Except String USBOutTransferResult

/-- Interface `PrinterEndpoint`. -/
structure PrinterEndpoint where
  iface : USBInterface
  endpointNumber : Nat
  deriving DecidableEq

/-- Result type of `print` (`{success, bytesWritten?, error?}`). -/
structure TransferOutcome where
  success : Bool
  bytesWritten : Option Nat
  error : Option String
  deriving DecidableEq

/-- One call into the USB transport, for recording which transport
primitives an operation touches. -/
inductive TransportCall
  | openDevice
  | selectConfiguration (v : Nat)
  | claimInterface (n : Nat)
  | controlTransferOut (request : Nat) (value : Nat) (index : Nat)
  | bulkTransferOut (endpointNumber : Nat)
  deriving DecidableEq

/-- Inner loop of `findOutEndpoint`: first alternate setting owning an OUT
endpoint wins, and within an alternate `endpoints.find` takes the first OUT
endpoint in declaration order. -/
def findOutInAlternates : List USBAlternateInterface → Option USBEndpoint
  | [] => none
  | alt :: rest =>
    match alt.endpoints.find? (fun e => e.direction = USBDirection.dirOut) with
    | some e => some e
    | none => findOutInAlternates rest

/-- Outer loop of `findOutEndpoint` over `config.interfaces`. -/
def findOutInInterfaces : List USBInterface → Option PrinterEndpoint
  | [] => none
  | iface :: rest =>
    match findOutInAlternates iface.alternates with
    | some e => some ⟨iface, e.endpointNumber⟩
    | none => findOutInInterfaces rest

/-- Method `findOutEndpoint(device)`: scans only
`device.configurations?.[0]`. -/
def findOutEndpoint (device : USBDevice) : Option PrinterEndpoint :=
  match device.configurations.head? with
  | none => none
  | some config => findOutInInterfaces config.interfaces

/-- Search that §4.3 of the spec describes, stated in the spec's own terms:
flatten the first configuration's interfaces' alternate settings' endpoints
in declaration order, take the first endpoint whose direction is OUT, and
pair it with its owning interface.  Used only to compare `findOutEndpoint`
against the specified policy. -/
def specFindOutEndpoint (device : USBDevice) : Option PrinterEndpoint :=
  match device.configurations.head? with
  | none => none
  | some config =>
    ((config.interfaces.flatMap fun i =>
        i.alternates.flatMap fun a => a.endpoints.map fun e => (i, e)).find?
      (fun p => p.2.direction = USBDirection.dirOut)).map
      fun p => ⟨p.1, p.2.endpointNumber⟩

/-- Method `openAndClaim(device, interfaceNumber)`, with the list of
transport calls it performed; an `Except.error` is an exception propagating
out of it (to be caught in `print`). -/
def openAndClaim (device : USBDevice) (interfaceNumber : Nat) :
    List TransportCall × Except String Unit :=
  let opening :=
    if device.opened then ([], Except.ok ())
    else ([TransportCall.openDevice], device.openResult)
  match opening with
  | (t, Except.error e) => (t, Except.error e)
  | (t, Except.ok _) =>
    let needSelect :=
      (match device.configuration with
        | some c => c.configurationValue != 1
        | none => true) && !device.configurations.isEmpty
    if needSelect then
      match device.selectConfigurationResult 1 with
      | Except.error e =>
        (t ++ [TransportCall.selectConfiguration 1], Except.error e)
      | Except.ok _ =>
        (t ++ [TransportCall.selectConfiguration 1,
               TransportCall.claimInterface interfaceNumber],
         device.claimInterfaceResult interfaceNumber)
    else
      (t ++ [TransportCall.claimInterface interfaceNumber],
       device.claimInterfaceResult interfaceNumber)

/-- Class `WebUSBPrinter`: its one piece of state is the connected device
reference. -/
structure WebUSBPrinter where
  device : Option USBDevice

/-- Method `print(data)`, together with the list of transport calls it
performed.  The embedding is total: every exception a transport primitive
throws is materialised as data (`Except.error`), mirroring the source's
`try`/`catch` which converts it into a failure outcome, and the priming
control transfer's outcome is bound but never consulted, mirroring the
inner `try { ... } catch { /* Ignore */ }`. -/
def printRun (p : WebUSBPrinter) (data : List Nat) :
    TransferOutcome × List TransportCall :=
  match p.device with
  | none => (⟨false, none, some "No device connected"⟩, [])
  | some device =>
    match findOutEndpoint device with
    | none => (⟨false, none, some "No OUT endpoint found"⟩, [])
    | some endpoint =>
      match openAndClaim device endpoint.iface.interfaceNumber with
      | (t, Except.error e) => (⟨false, none, some e⟩, t)
      | (t, Except.ok _) =>
        let t := t ++ [TransportCall.controlTransferOut 0x22 0x01
          endpoint.iface.interfaceNumber]
        let _primed := device.controlTransferOutResult
        let t := t ++ [TransportCall.bulkTransferOut endpoint.endpointNumber]
        match device.transferOutResult endpoint.endpointNumber data with
        | Except.error e => (⟨false, none, some e⟩, t)
        | Except.ok result =>
          if result.status = USBTransferStatus.ok then
            (⟨true, some result.bytesWritten, none⟩, t)
          else
            (⟨false, none,
              some ("Transfer status: " ++ result.status.text)⟩, t)

/-!
Concrete fixtures used by the witnesses and examples below.
-/

/-- A 253-character payload: its UTF-8 length is the smallest at which the
low byte of the QR stored-length field overflows (`253 % 256 + 3 = 256`). -/
def qrPayload253 : String :=
  String.mk (List.replicate 253 'a')

/-- A 300-character payload, the second example of the spec. -/
def qrPayload300 : String :=
  String.mk (List.replicate 300 'a')

/-- Stand-in for `new Date().toLocaleString()` in the verified receipt. -/
def sampleNow : String :=
  "01/01/2024, 10:00:00 AM"

/-- Receipt of the spec's example `buildReceipt("Shop", [{"A",2,10.00}],
0.0, "CASH")`. -/
def sampleReceipt : List Nat :=
  buildReceipt "Shop" [⟨"A", 2, 10⟩] 0 "CASH" sampleNow

/-- First interface of the search-order example: its only alternate has
only an IN endpoint. -/
def sampleIface0 : USBInterface :=
  ⟨0, [⟨[⟨1, USBDirection.dirIn⟩]⟩]⟩

/-- Second interface of the search-order example: its first alternate has
only an IN endpoint, its second alternate has OUT endpoint number 5. -/
def sampleIface1 : USBInterface :=
  ⟨1, [⟨[⟨2, USBDirection.dirIn⟩]⟩,
       ⟨[⟨3, USBDirection.dirIn⟩, ⟨5, USBDirection.dirOut⟩]⟩]⟩

/-- Transport oracles that always succeed (used where the transfer
behaviour is irrelevant). -/
def quietTransportDevice (configs : List USBConfiguration)
    (active : Option USBConfiguration) : USBDevice :=
  { configurations := configs
    configuration := active
    opened := false
    openResult := Except.ok ()
    selectConfigurationResult := fun _ => Except.ok ()
    claimInterfaceResult := fun _ => Except.ok ()
    controlTransferOutResult := Except.ok ⟨0, USBTransferStatus.ok⟩
    transferOutResult := fun _ _ => Except.ok ⟨0, USBTransferStatus.ok⟩ }

/-- Device of the search-order example: only the second interface's second
alternate has an OUT endpoint. -/
def sampleDevice : USBDevice :=
  quietTransportDevice [⟨1, [sampleIface0, sampleIface1]⟩]
    (some ⟨1, [sampleIface0, sampleIface1]⟩)

/-- A device with no declared configuration. -/
def emptyDevice : USBDevice :=
  quietTransportDevice [] none

/-- A device whose only endpoints are IN endpoints. -/
def inOnlyDevice : USBDevice :=
  quietTransportDevice [⟨1, [sampleIface0]⟩] (some ⟨1, [sampleIface0]⟩)

/-- A connected, claimable device whose bulk OUT transfer reports status
`stall` and whose priming control transfer throws. -/
def stallDevice : USBDevice :=
  { configurations := [⟨1, [⟨0, [⟨[⟨2, USBDirection.dirOut⟩]⟩]⟩]⟩]
    configuration := some ⟨1, [⟨0, [⟨[⟨2, USBDirection.dirOut⟩]⟩]⟩]⟩
    opened := false
    openResult := Except.ok ()
    selectConfigurationResult := fun _ => Except.ok ()
    claimInterfaceResult := fun _ => Except.ok ()
    controlTransferOutResult := Except.error "control transfer not supported"
    transferOutResult := fun _ _ => Except.ok ⟨0, USBTransferStatus.stall⟩ }

/-!
Shared helper lemmas.
-/

theorem take_two_append (s t : List Nat) (h : s.take 2 = [ESC, 0x40]) :
    (s ++ t).take 2 = [ESC, 0x40] := by
  have hlen : 2 ≤ s.length := by
    have h2 : 2 ⊓ s.length = 2 := by simpa using congrArg List.length h
    omega
  rw [List.take_append_eq_append_take]
  have h0 : 2 - s.length = 0 := by omega
  rw [h0, List.take_zero, List.append_nil, h]

theorem applyOp_take_two (o : Op) (s : List Nat) (h : s.take 2 = [ESC, 0x40]) :
    (applyOp o s).take 2 = [ESC, 0x40] := by
  cases o <;>
    simp only [applyOp, ESCPOSBuilder.initPrinter, ESCPOSBuilder.align,
      ESCPOSBuilder.textSize, ESCPOSBuilder.bold, ESCPOSBuilder.underline,
      ESCPOSBuilder.text, ESCPOSBuilder.line, ESCPOSBuilder.feed,
      ESCPOSBuilder.drawLine, ESCPOSBuilder.barcode, ESCPOSBuilder.qrCode,
      ESCPOSBuilder.openDrawer, ESCPOSBuilder.cut, ESCPOSBuilder.buildM,
      ESCPOSBuilder.reset, List.append_assoc] <;>
    first
      | exact h
      | exact take_two_append _ _ h
      | rfl

theorem runOps_take_two (ops : List Op) (s : List Nat)
    (h : s.take 2 = [ESC, 0x40]) : (runOps ops s).take 2 = [ESC, 0x40] := by
  induction ops generalizing s with
  | nil => exact h
  | cons o rest ih => exact ih _ (applyOp_take_two o s h)

theorem midExtendRight {l b : List Nat} (x : List Nat) (h : l <:+: b) :
    l <:+: b ++ x := by
  obtain ⟨u, v, rfl⟩ := h
  exact ⟨u, v ++ x, by simp⟩

theorem midPrepend {l t : List Nat} (s : List Nat) (h : l <:+: t) :
    l <:+: s ++ t := by
  obtain ⟨u, v, rfl⟩ := h
  exact ⟨s ++ u, v, by simp⟩

theorem midConsRight {l t : List Nat} (a : Nat) (h : l <:+: t) :
    l <:+: a :: t := by
  obtain ⟨u, v, rfl⟩ := h
  exact ⟨a :: u, v, by simp⟩

theorem midHead (l v : List Nat) : l <:+: l ++ v :=
  ⟨[], v, rfl⟩

theorem midMap (f : Nat → Nat) {l b : List Nat} (h : l <:+: b) :
    l.map f <:+: b.map f := by
  obtain ⟨u, v, rfl⟩ := h
  exact ⟨u.map f, v.map f, by simp⟩

theorem utf8Encode_append (a b : String) :
    utf8Encode (a ++ b) = utf8Encode a ++ utf8Encode b := by
  simp [utf8Encode, String.data_append]

/-!
Claim theorems.
-/

/-- C5: the command buffer is exactly the initialize sequence `[0x1B, 0x40]`
right after construction and right after `reset()`, and every builder
operation (including `reset`, which re-establishes it, and `build`, which
reads but does not change the buffer) preserves this two-byte prefix of the
buffer and hence of the built output: for every sequence of builder method
calls starting from a fresh `ESCPOSBuilder`, the buffer and the built byte
stream start with `[0x1B, 0x40]`. -/
theorem builder_init_prefix_invariant :
    ∀ ops : List Op,
      (runOps ops ESCPOSBuilder.new).take 2 = [ESC, 0x40] ∧
      (ESCPOSBuilder.build (runOps ops ESCPOSBuilder.new)).take 2
        = [ESC, 0x40] := by
  intro ops
  have base : ESCPOSBuilder.new.take 2 = [ESC, 0x40] := by decide
  have main := runOps_take_two ops ESCPOSBuilder.new base
  refine ⟨main, ?_⟩
  rw [ESCPOSBuilder.build, ← List.map_take, main]
  decide

/-- C8: `align`, `textSize` and `cut` append exactly the fixed byte triples
`[0x1B, 0x61, a]`, `[0x1B, 0x21, s]` and `[0x1D, 0x56, t]`, and the enum
members carry the numeric values LEFT=0, CENTER=1, RIGHT=2, NORMAL=0x00,
DOUBLE_HEIGHT=0x10, DOUBLE_WIDTH=0x20, DOUBLE_BOTH=0x30, FULL=0,
PARTIAL=1. -/
theorem enum_command_bytes :
    (∀ (b : List Nat) (a : TextAlign),
        ESCPOSBuilder.align b a = b ++ [0x1b, 0x61, a.val]) ∧
    (∀ (b : List Nat) (s : TextSize),
        ESCPOSBuilder.textSize b s = b ++ [0x1b, 0x21, s.val]) ∧
    (∀ (b : List Nat) (t : CutType),
        ESCPOSBuilder.cut b t = b ++ [0x1d, 0x56, t.val]) ∧
    (TextAlign.val TextAlign.LEFT = 0 ∧ TextAlign.val TextAlign.CENTER = 1 ∧
      TextAlign.val TextAlign.RIGHT = 2) ∧
    (TextSize.val TextSize.NORMAL = 0x00 ∧
      TextSize.val TextSize.DOUBLE_HEIGHT = 0x10 ∧
      TextSize.val TextSize.DOUBLE_WIDTH = 0x20 ∧
      TextSize.val TextSize.DOUBLE_BOTH = 0x30) ∧
    (CutType.val CutType.FULL = 0 ∧ CutType.val CutType.PARTIAL = 1) :=
  ⟨fun _ _ => rfl, fun _ _ => rfl, fun _ _ => rfl,
   ⟨rfl, rfl, rfl⟩, ⟨rfl, rfl, rfl, rfl⟩, ⟨rfl, rfl⟩⟩

/-- C9: `build()` is a pure snapshot: it leaves the buffer unchanged,
calling it twice in succession returns equal byte sequences, and builder
operations performed after a `build()` act on the same buffer as if
`build()` had not been called.  (The returned snapshot is a fresh
`Uint8Array` copy in the source, which the embedding reflects by `build`
returning a value independent of the buffer object.) -/
theorem build_snapshot_pure :
    ∀ (b : List Nat) (ops : List Op),
      (ESCPOSBuilder.buildM b).1 = b ∧
      (ESCPOSBuilder.buildM (ESCPOSBuilder.buildM b).1).2
        = (ESCPOSBuilder.buildM b).2 ∧
      runOps ops (ESCPOSBuilder.buildM b).1 = runOps ops b :=
  fun _ _ => ⟨rfl, rfl, rfl⟩

/-- C10: the defaulted builder operations: `cut()` appends the FULL-cut
bytes `[0x1D, 0x56, 0x00]`, `bold()` appends bold-on `[0x1B, 0x45, 0x01]`,
`feed()` appends exactly one `0x0A`, and `line()` appends exactly one
`0x0A` (the empty text contributes no bytes). -/
theorem builder_default_args :
    (∀ b : List Nat, ESCPOSBuilder.cut b = b ++ [0x1d, 0x56, 0x00]) ∧
    (∀ b : List Nat, ESCPOSBuilder.bold b = b ++ [0x1b, 0x45, 0x01]) ∧
    (∀ b : List Nat, ESCPOSBuilder.feed b = b ++ [0x0a]) ∧
    (∀ b : List Nat, ESCPOSBuilder.line b = b ++ [0x0a]) := by
  refine ⟨fun b => rfl, fun b => rfl, fun b => rfl, fun b => ?_⟩
  show (b ++ utf8Encode "") ++ [LF] = b ++ [0x0a]
  rw [show utf8Encode "" = [] from rfl, List.append_nil]
  rfl

/-- C6: `print` on a session with no connected device returns
`{success: false, error: "No device connected"}` and performs no transport
call at all (the recorded transport trace is empty), for every byte
input. -/
theorem print_no_device :
    ∀ data : List Nat,
      printRun ⟨none⟩ data
        = (⟨false, none, some "No device connected"⟩, []) :=
  fun _ => rfl

/-- C1 (code bug): the spec's two examples hold — a 1-byte payload emits
the store-data frame `[0x1D,0x28,0x6B,4,0,0x31,0x50,0x30]` and a 300-byte
payload emits low byte 47 and high byte 1 — but the universally quantified
claim fails: the code computes `pL = len % 256` and `pH = len / 256`
BEFORE adding 3, so the carry of `+3` out of the low byte is lost.  At a
253-byte payload the emitted frame carries low byte 0 (the pushed value
`253 + 3 = 256` is truncated by the `Uint8Array` coercion) and high byte
`253 / 256 = 0`, i.e. a stored length of 0, while the claim (and ESC/POS)
requires `pL = (253+3) % 256 = 0` and `pH = (253+3) / 256 = 1`.  The store
frame occupies positions 27..34 of the built output (2 initialize bytes
and three 9-, 8- and 8-byte frames precede it). -/
theorem qrCode_store_frame_bug :
    ((ESCPOSBuilder.build
        (ESCPOSBuilder.qrCode ESCPOSBuilder.new "a" 6)).drop 27).take 8
      = [0x1d, 0x28, 0x6b, 4, 0, 0x31, 0x50, 0x30] ∧
    ((ESCPOSBuilder.build
        (ESCPOSBuilder.qrCode ESCPOSBuilder.new qrPayload300 6)).drop 27).take 8
      = [0x1d, 0x28, 0x6b, 47, 1, 0x31, 0x50, 0x30] ∧
    (utf8Encode qrPayload253).length = 253 ∧
    ((ESCPOSBuilder.build
        (ESCPOSBuilder.qrCode ESCPOSBuilder.new qrPayload253 6)).drop 27).take 8
      = [0x1d, 0x28, 0x6b, 0x00, 0x00, 0x31, 0x50, 0x30] ∧
    (253 + 3) % 256 = 0 ∧ (253 + 3) / 256 = 1 :=
  ⟨by decide, by decide, by decide, by decide, by decide, by decide⟩

theorem findOutInAlternates_flat (alts : List USBAlternateInterface) :
    findOutInAlternates alts
      = (alts.flatMap USBAlternateInterface.endpoints).find?
          (fun e => e.direction = USBDirection.dirOut) := by
  induction alts with
  | nil => rfl
  | cons alt rest ih =>
    simp only [findOutInAlternates, List.flatMap_cons, List.find?_append]
    cases h : alt.endpoints.find? (fun e => e.direction = USBDirection.dirOut) with
    | none => simpa only [Option.none_or] using ih
    | some e => rfl

theorem findOutInInterfaces_flat (l : List USBInterface) :
    findOutInInterfaces l
      = ((l.flatMap fun i =>
            i.alternates.flatMap fun a => a.endpoints.map fun e => (i, e)).find?
          (fun p => p.2.direction = USBDirection.dirOut)).map
          (fun p => (⟨p.1, p.2.endpointNumber⟩ : PrinterEndpoint)) := by
  induction l with
  | nil => rfl
  | cons iface rest ih =>
    have hmapped :
        (iface.alternates.flatMap fun a => a.endpoints.map fun e => (iface, e))
          = (iface.alternates.flatMap USBAlternateInterface.endpoints).map
              (fun e => (iface, e)) := by
      rw [List.map_flatMap]
    have hcomp :
        ((fun p => decide (p.2.direction = USBDirection.dirOut)) ∘
            (fun e => ((iface, e) : USBInterface × USBEndpoint)))
          = fun e => decide (e.direction = USBDirection.dirOut) := rfl
    simp only [findOutInInterfaces, List.flatMap_cons, List.find?_append,
      hmapped, List.find?_map, hcomp, findOutInAlternates_flat]
    cases h : (iface.alternates.flatMap USBAlternateInterface.endpoints).find?
        (fun e => e.direction = USBDirection.dirOut) with
    | none =>
      simpa only [Option.map_none', Option.none_or] using ih
    | some e => rfl

/-- C4: `findOutEndpoint` scans only the first declared configuration and
returns the first OUT endpoint in interface order, then alternate-setting
order, then endpoint order, paired with its owning interface (stated as
equality with the spec's flattened first-match search); it returns `none`
when there is no configuration or no OUT endpoint anywhere (no interfaces
is the special case of an empty flattening); and on a device where only the
second interface's second alternate has an OUT endpoint it returns that
endpoint (number 5) with that second interface. -/
theorem findOutEndpoint_policy :
    (∀ d : USBDevice, findOutEndpoint d = specFindOutEndpoint d) ∧
    (∀ d : USBDevice, d.configurations = [] → findOutEndpoint d = none) ∧
    (∀ (d : USBDevice) (c : USBConfiguration),
        d.configurations.head? = some c →
        (∀ i ∈ c.interfaces, ∀ a ∈ i.alternates, ∀ e ∈ a.endpoints,
          e.direction ≠ USBDirection.dirOut) →
        findOutEndpoint d = none) ∧
    findOutEndpoint sampleDevice = some ⟨sampleIface1, 5⟩ := by
  have hflat : ∀ d : USBDevice, findOutEndpoint d = specFindOutEndpoint d := by
    intro d
    unfold findOutEndpoint specFindOutEndpoint
    cases d.configurations.head? with
    | none => rfl
    | some c => exact findOutInInterfaces_flat c.interfaces
  refine ⟨hflat, ?_, ?_, by decide⟩
  · intro d h
    simp [findOutEndpoint, h]
  · intro d c hhead hall
    have hnone :
        ((c.interfaces.flatMap fun i =>
            i.alternates.flatMap fun a => a.endpoints.map fun e => (i, e)).find?
          (fun p => p.2.direction = USBDirection.dirOut)) = none := by
      rw [List.find?_eq_none]
      intro p hp
      obtain ⟨i, hi, hp2⟩ := List.mem_flatMap.mp hp
      obtain ⟨a, ha, hp3⟩ := List.mem_flatMap.mp hp2
      obtain ⟨e, he, rfl⟩ := List.mem_map.mp hp3
      simpa using hall i hi a ha e he
    rw [hflat]
    unfold specFindOutEndpoint
    rw [hhead]
    simp only [hnone, Option.map_none']

/-- Witness for C4: the hypothesis-bearing conjuncts applied to a device
with no configuration and to a device whose endpoints are all IN. -/
theorem findOutEndpoint_policy_witness :
    findOutEndpoint emptyDevice = none ∧ findOutEndpoint inOnlyDevice = none :=
  ⟨findOutEndpoint_policy.2.1 emptyDevice rfl,
   findOutEndpoint_policy.2.2.1 inOnlyDevice ⟨1, [sampleIface0]⟩ rfl
     (by decide)⟩

/-- C3: `print` never raises — the embedding makes every transport
exception a value, and the theorem shows each is converted into a failure
outcome carrying the exception's message.  Conjuncts: (1) the outcome is
invariant under the priming control transfer's oracle, so a thrown priming
transfer (request 0x22, value 0x01) is never reflected in the result; (2)
an exception propagating out of `openAndClaim` (open, configuration-select
or interface-claim) yields `{success: false}` with that message; (3) an
exception thrown by the bulk transfer yields `{success: false}` with that
message; (4) a bulk transfer resolving with status `stall` yields
`{success: false, error: "Transfer status: stall"}`; (5) that error text
contains `"stall"`. -/
theorem print_exception_to_outcome :
    (∀ (device : USBDevice) (data : List Nat)
        (x : Except String USBOutTransferResult),
        (printRun ⟨some { device with controlTransferOutResult := x }⟩ data).1
          = (printRun ⟨some device⟩ data).1) ∧
    (∀ (device : USBDevice) (data : List Nat) (ep : PrinterEndpoint)
        (t : List TransportCall) (e : String),
        findOutEndpoint device = some ep →
        openAndClaim device ep.iface.interfaceNumber = (t, Except.error e) →
        (printRun ⟨some device⟩ data).1 = ⟨false, none, some e⟩) ∧
    (∀ (device : USBDevice) (data : List Nat) (ep : PrinterEndpoint)
        (t : List TransportCall) (e : String),
        findOutEndpoint device = some ep →
        openAndClaim device ep.iface.interfaceNumber = (t, Except.ok ()) →
        device.transferOutResult ep.endpointNumber data = Except.error e →
        (printRun ⟨some device⟩ data).1 = ⟨false, none, some e⟩) ∧
    (∀ (device : USBDevice) (data : List Nat) (ep : PrinterEndpoint)
        (t : List TransportCall) (r : USBOutTransferResult),
        findOutEndpoint device = some ep →
        openAndClaim device ep.iface.interfaceNumber = (t, Except.ok ()) →
        device.transferOutResult ep.endpointNumber data = Except.ok r →
        r.status = USBTransferStatus.stall →
        (printRun ⟨some device⟩ data).1
          = ⟨false, none, some "Transfer status: stall"⟩) ∧
    utf8Encode "stall" <:+: utf8Encode "Transfer status: stall" := by
  refine ⟨?_, ?_, ?_, ?_, by decide⟩
  · intro device data x
    cases device
    rfl
  · intro device data ep t e hfind hoc
    simp only [printRun, hfind, hoc]
  · intro device data ep t e hfind hoc htr
    simp only [printRun, hfind, hoc, htr]
  · intro device data ep t r hfind hoc htr hst
    simp only [printRun, hfind, hoc, htr, hst]
    rfl

/-- Witness for C3: a concrete connected device whose priming control
transfer throws and whose bulk transfer stalls; `print` reports the stall
and not the priming failure. -/
theorem print_exception_to_outcome_witness :
    (printRun ⟨some stallDevice⟩ [1, 2, 3]).1
      = ⟨false, none, some "Transfer status: stall"⟩ :=
  print_exception_to_outcome.2.2.2.1 stallDevice [1, 2, 3]
    ⟨⟨0, [⟨[⟨2, USBDirection.dirOut⟩]⟩]⟩, 2⟩
    [TransportCall.openDevice, TransportCall.claimInterface 0]
    ⟨0, USBTransferStatus.stall⟩ rfl rfl rfl rfl

theorem tax_line_in_totals (b : List Nat) (st tax : ℚ) (pay : String)
    (h : 0 < tax) :
    utf8Encode "Tax: $" <:+: receiptTotalsFooter b st tax pay := by
  simp only [receiptTotalsFooter, ESCPOSBuilder.drawLine, ESCPOSBuilder.line,
    ESCPOSBuilder.text, ESCPOSBuilder.align, ESCPOSBuilder.textSize,
    ESCPOSBuilder.bold, ESCPOSBuilder.feed, ESCPOSBuilder.cut, if_pos h,
    utf8Encode_append, List.append_assoc]
  repeat
    first
      | exact midHead _ _
      | apply midConsRight
      | apply midPrepend

/-- C7: `buildReceipt` emits a `"Tax: $..."` line whenever `tax > 0` (for
every store name, item list, tax, payment label and timestamp), and on the
spec's concrete example `buildReceipt("Shop", [{"A",2,10.00}], 0.0,
"CASH")` the byte stream contains `"Subtotal: $20.00"` and
`"TOTAL: $20.00"` and contains no `"Tax:"` text at all (so in particular no
tax line). -/
theorem receipt_tax_line :
    (∀ (storeName : String) (items : List ReceiptItem) (tax : ℚ)
        (payment now : String), 0 < tax →
        utf8Encode "Tax: $" <:+: buildReceipt storeName items tax payment now) ∧
    utf8Encode "Subtotal: $20.00" <:+: sampleReceipt ∧
    utf8Encode "TOTAL: $20.00" <:+: sampleReceipt ∧
    ¬ utf8Encode "Tax:" <:+: sampleReceipt := by
  constructor
  · intro storeName items tax payment now h
    simp only [buildReceipt, ESCPOSBuilder.build]
    have h1 := tax_line_in_totals
      (List.foldl receiptItemStep (receiptHeader storeName now, (0 : ℚ)) items).1
      (List.foldl receiptItemStep (receiptHeader storeName now, (0 : ℚ)) items).2
      tax payment h
    have h2 := midMap (· % 256) h1
    rwa [show (utf8Encode "Tax: $").map (· % 256) = utf8Encode "Tax: $" from
      by decide] at h2
  · have e6 : ¬ ((0 : ℚ) > 0) := lt_irrefl 0
    have e2 : numRepr (2 : ℚ) = "2" := by
      have hd : (2 : ℚ).den = 1 := by norm_num
      have hn : (2 : ℚ).num = 2 := by norm_num
      rw [numRepr, if_pos hd, if_neg (by rw [hn]; decide), hn]
      rfl
    have e1 : toFixed2 (10 : ℚ) = "10.00" := by
      have hneg : ¬ ((10 : ℚ) < 0) := by norm_num
      have habs : |(10 : ℚ)| = 10 := by norm_num
      unfold toFixed2
      simp only [if_neg hneg, habs]
      rw [show ⌊((10 : ℚ) * 100 + 1 / 2)⌋ = 1000 from by norm_num]
      rfl
    have e3 : toFixed2 ((2 : ℚ) * 10) = "20.00" := by
      have hneg : ¬ ((2 : ℚ) * 10 < 0) := by norm_num
      have habs : |(2 : ℚ) * 10| = 20 := by norm_num
      unfold toFixed2
      simp only [if_neg hneg, habs]
      rw [show ⌊((20 : ℚ) * 100 + 1 / 2)⌋ = 2000 from by norm_num]
      rfl
    have e4 : toFixed2 ((0 : ℚ) + 2 * 10) = "20.00" := by
      have hneg : ¬ ((0 : ℚ) + 2 * 10 < 0) := by norm_num
      have habs : |(0 : ℚ) + 2 * 10| = 20 := by norm_num
      unfold toFixed2
      simp only [if_neg hneg, habs]
      rw [show ⌊((20 : ℚ) * 100 + 1 / 2)⌋ = 2000 from by norm_num]
      rfl
    have e5 : toFixed2 ((0 : ℚ) + 2 * 10 + 0) = "20.00" := by
      have hneg : ¬ ((0 : ℚ) + 2 * 10 + 0 < 0) := by norm_num
      have habs : |(0 : ℚ) + 2 * 10 + 0| = 20 := by norm_num
      unfold toFixed2
      simp only [if_neg hneg, habs]
      rw [show ⌊((20 : ℚ) * 100 + 1 / 2)⌋ = 2000 from by norm_num]
      rfl
    refine ⟨?_, ?_, ?_⟩ <;>
      · simp only [sampleReceipt, buildReceipt, List.foldl_cons,
          List.foldl_nil, receiptItemStep, receiptHeader,
          receiptTotalsFooter, if_neg e6, e1, e2, e3, e4, e5]
        decide

/-- Witness for C7: the tax line appears for a strictly positive tax. -/
theorem receipt_tax_line_witness :
    utf8Encode "Tax: $" <:+: buildReceipt "Shop" [] 1 "CASH" sampleNow :=
  receipt_tax_line.1 "Shop" [] 1 "CASH" sampleNow (by norm_num)

end NextPrint
